import Mathlib

/-!
Shallow embedding of `ProdCalendar` (src/__init__.py): a Russian production
calendar with a three-tier lookup (in-memory holder, on-disk cache file,
remote HTTP fetch), TTL-based freshness, day-marker normalization, and a
two-method query API (`isWorkDay` / `isHoliday`) with user date overrides.

Modelling conventions:
* Time is `Int` epoch seconds.  `datetime.utcnow()` is `St.now`;
  `datetime.now()` and `datetime.fromtimestamp` add the constant local-zone
  offset `St.localOff`.  The `downloaded_dt_utc` string field is modelled as
  the integer timestamp it encodes (the strftime/strptime format round-trips
  at second granularity).
* Python exceptions are `Except PyErr`; an error discards the post-state
  (no claim inspects state after an exception).
* JSON documents are structures with `Option` fields; a missing key is
  `none` and subscripting it raises `keyError`.  A cache file on disk either
  parses to such a document or is `garbage` (raising `jsonDecodeError` on
  `json.load`).
* `St.dls` counts calls to `requests.get` (network acquisitions) and
  `St.diskOps` counts filesystem touches (mkdir / is_file / stat / open).
-/

namespace ProdCal

/-- A Python `datetime.date`: year, month (1-12), day (1-31). -/
structure Date where
  year : Nat
  month : Nat
  day : Nat
deriving DecidableEq, Repr

/-- Python exceptions that the code in src/__init__.py can raise. -/
inductive PyErr where
  | serviceNotRespond   -- ProdCalServiceNotRespond
  | prodCalError        -- ProdCalError("Downloaded calendar data is corrupted")
  | keyError            -- KeyError from a missing dict key
  | jsonDecodeError     -- json.JSONDecodeError from json.load / resp.json()
  | typeError           -- subscripting None
  | valueError          -- int('') on a digit-free day token
deriving DecidableEq, Repr

/-- One raw month object of the remote JSON body: `{"month": m, "days": "1,2,3*"}`. -/
structure RawMonth where
  month : Int
  days : String
deriving DecidableEq, Repr

/-- The raw remote JSON body; `none` fields model absent keys. -/
structure RawCal where
  year : Option Int
  months : Option (List RawMonth)
deriving DecidableEq, Repr

/-- A month entry as held in memory / serialized to the cache file after
normalization: the raw fields plus the computed `days_int` list. -/
structure MonthEntry where
  month : Int
  days : String
  days_int : List Int
deriving DecidableEq, Repr

/-- A yearly calendar document (dict) as held in the memory slot or parsed
back from a cache file; `none` fields model absent keys. -/
structure CalDoc where
  year : Option Int
  months : Option (List MonthEntry)
  downloaded_dt_utc : Option Int
deriving DecidableEq, Repr

/-- Content of an on-disk cache file: valid JSON or not. -/
inductive FileContent where
  | parseable (doc : CalDoc)
  | garbage
deriving DecidableEq, Repr

/-- An on-disk cache file: its mtime (epoch seconds) and its content. -/
structure CacheFile where
  mtime : Int
  content : FileContent
deriving DecidableEq, Repr

/-- Response of the remote collaborator for one `requests.get`. -/
inductive RemoteResp where
  | transportError                                  -- requests.exceptions.RequestException
  | response (status : Int) (body : Option RawCal)  -- body = none: resp.json() fails
deriving DecidableEq, Repr

/-- Immutable per-instance configuration (constructor arguments). -/
structure Cfg where
  isCache : Bool
  cacheTTL : Int
  overrides : Date → Option Int
  remote : Int → RemoteResp

/-- Mutable world state threaded through the methods. -/
structure St where
  files : Int → Option CacheFile  -- cache file per year (fixed dir and country)
  cacheData : Option CalDoc       -- the `_cache_data` slot
  now : Int                       -- current UTC epoch seconds
  localOff : Int                  -- local time = UTC + localOff
  dls : Nat                       -- network acquisitions performed
  diskOps : Nat                   -- filesystem touches performed

/-- Bump the filesystem-touch counter. -/
def fsTouch (st : St) : St := { st with diskOps := st.diskOps + 1 }

/-- Point update of the per-year file map. -/
def updFiles (fs : Int → Option CacheFile) (year : Int) (f : Option CacheFile) :
    Int → Option CacheFile :=
  fun y => if y = year then f else fs y

/-- Python `s.split(',')` on the character list: split at every comma,
keeping empty tokens (`"".split(',') == ['']`). -/
def splitOnComma (cs : List Char) : List (List Char) :=
  match cs with
  | [] => [[]]
  | c :: rest =>
    match splitOnComma rest, decide (c = ',') with
    | r, true => [] :: r
    | [], false => [[c]]
    | t :: ts, false => (c :: t) :: ts

/-- Python `x.endswith('*')` (false on the empty token). -/
def endsWithStar (t : List Char) : Bool :=
  match t.getLast? with
  | some c => c == '*'
  | none => false

/-- Base-10 value of a digit-character list (Python `int` on a digit string). -/
def natOfDigits (l : List Char) : Nat :=
  l.foldl (fun acc c => acc * 10 + (c.toNat - 48)) 0

/-- Python `int(''.join([y for y in x if y.isdigit()]))`: filter to the digit
characters (ASCII here) and parse; `int('')` raises ValueError. -/
def intOfDigits (t : List Char) : Except PyErr Int :=
  match t.filter Char.isDigit with
  | [] => .error .valueError
  | ds => .ok (natOfDigits ds : Int)

/-- The `days_int` list of one month, from line 117 of src/__init__.py:
`[int(''.join([y for y in x if y.isdigit()])) for x in m['days'].split(',') if not x.endswith('*')]`. -/
def daysInt (days : String) : Except PyErr (List Int) :=
  ((splitOnComma days.data).filter (fun t => ! endsWithStar t)).mapM intOfDigits

/-- Normalization of all months of a downloaded document (the for-loop of
`_downloadYear`). -/
def normalizeMonths (ms : List RawMonth) : Except PyErr (List MonthEntry) :=
  ms.mapM (fun m => (daysInt m.days).map (fun l => ⟨m.month, m.days, l⟩))

/-! Weekday arithmetic matching Python `datetime.date.weekday`
(proleptic Gregorian; Monday = 0 .. Sunday = 6). -/

/-- Gregorian leap-year test. -/
def isLeap (y : Nat) : Bool := y % 4 = 0 ∧ (y % 100 ≠ 0 ∨ y % 400 = 0)

/-- Days in the given month of the given year. -/
def daysInMonth (y m : Nat) : Nat :=
  if m = 2 then (if isLeap y then 29 else 28)
  else if m = 4 ∨ m = 6 ∨ m = 9 ∨ m = 11 then 30 else 31

/-- Days before January 1 of year `y` counted from the epoch of
`date.toordinal` (ordinal of 0001-01-01 is 1). -/
def daysBeforeYear (y : Nat) : Nat :=
  365 * (y - 1) + (y - 1) / 4 - (y - 1) / 100 + (y - 1) / 400

/-- Days before the first of month `m` in year `y`. -/
def daysBeforeMonth (y m : Nat) : Nat :=
  ((List.range m).filter (fun k => 1 ≤ k ∧ k < m)).foldl
    (fun acc k => acc + daysInMonth y k) 0

/-- Python `date.toordinal`. -/
def toordinal (d : Date) : Nat :=
  daysBeforeYear d.year + daysBeforeMonth d.year d.month + d.day

/-- Python `date.weekday`: Monday = 0 .. Sunday = 6. -/
def weekday (d : Date) : Nat := (toordinal d + 6) % 7

/-! The methods of class `ProdCalendar`, in source order.  Each takes the
immutable `Cfg` and the current `St` and returns `Except PyErr (result × St)`
(or a pure pair when the Python method cannot raise). -/

/-- `_is_cache_file_valid` (lines 145-150): `is_file`, then compare the
mtime converted to local time (`datetime.fromtimestamp`) plus the TTL with
local `datetime.now()`. -/
def isCacheFileValid (cfg : Cfg) (year : Int) (st : St) : Bool × St :=
  let st1 := fsTouch st
  match st.files year with
  | none => (false, st1)
  | some f =>
    let st2 := fsTouch st1
    (decide ((f.mtime + st.localOff) + cfg.cacheTTL ≥ st.now + st.localOff), st2)

/-- `_is_cache_mem_data_valid` (lines 152-156): falsy or key-less memory slot
is invalid; else compare the embedded UTC timestamp plus the TTL with
`datetime.utcnow()`.  Pure (no filesystem access). -/
def isCacheMemDataValid (cfg : Cfg) (st : St) : Bool :=
  match st.cacheData with
  | none => false
  | some d =>
    match d.downloaded_dt_utc with
    | none => false
    | some t => decide (t + cfg.cacheTTL ≥ st.now)

/-- `_downloadYear` (lines 98-118): one `requests.get`; transport failure or
non-200 raises `ProdCalServiceNotRespond`; a year mismatch or a missing
`months` key raises `ProdCalError`; the result is stamped with the current
UTC time and each month gets its normalized `days_int` list. -/
def downloadYear (cfg : Cfg) (year : Int) (st : St) : Except PyErr (CalDoc × St) :=
  let st1 : St := { st with dls := st.dls + 1 }
  match cfg.remote year with
  | .transportError => .error .serviceNotRespond
  | .response status body =>
    if status ≠ 200 then .error .serviceNotRespond
    else
      match body with
      | none => .error .jsonDecodeError
      | some cal =>
        match cal.year with
        | none => .error .keyError
        | some y =>
          if year ≠ y then .error .prodCalError
          else
            match cal.months with
            | none => .error .prodCalError
            | some ms =>
              match normalizeMonths ms with
              | .error e => .error e
              | .ok ms2 =>
                .ok (⟨some y, some ms2, some st1.now⟩, st1)

/-- `_write_cache` (lines 129-134): download, dump to the cache file
(overwriting; mtime becomes the current time), promote into the memory
slot, return the document. -/
def writeCache (cfg : Cfg) (year : Int) (st : St) : Except PyErr (CalDoc × St) :=
  match downloadYear cfg year st with
  | .error e => .error e
  | .ok (calend, st1) =>
    let st2 := fsTouch st1
    .ok (calend,
      { st2 with
        files := updFiles st2.files year (some ⟨st2.now, .parseable calend⟩),
        cacheData := some calend })

/-- `cache_year` (lines 120-127): mkdir, then write when `forced` or no file
exists; when a file exists unforced, write only if it is expired — and when
it is still valid, fall off the end of the function returning Python `None`. -/
def cacheYear (cfg : Cfg) (year : Int) (forced : Bool) (st : St) :
    Except PyErr (Option CalDoc × St) :=
  let st1 := fsTouch st           -- Path(cache_dir).mkdir(...)
  if forced then
    (writeCache cfg year st1).map (fun p => (some p.1, p.2))
  else
    let st2 := fsTouch st1        -- cache_file.is_file()
    if (st.files year).isNone then
      (writeCache cfg year st2).map (fun p => (some p.1, p.2))
    else
      match isCacheFileValid cfg year st2 with
      | (false, st3) => (writeCache cfg year st3).map (fun p => (some p.1, p.2))
      | (true, st3) => .ok (none, st3)

/-- `_get_cache` (lines 136-143): `None` when the file is absent or expired;
otherwise `json.load` it (raising on a parse failure) and promote the parsed
document into the memory slot. -/
def getCache (cfg : Cfg) (year : Int) (st : St) : Except PyErr (Option CalDoc × St) :=
  let st1 := fsTouch st           -- cache_file.is_file()
  match st.files year with
  | none => .ok (none, st1)
  | some f =>
    match isCacheFileValid cfg year st1 with
    | (false, st2) => .ok (none, st2)
    | (true, st2) =>
      let st3 := fsTouch st2      -- open(...)
      match f.content with
      | .garbage => .error .jsonDecodeError
      | .parseable doc => .ok (some doc, { st3 with cacheData := some doc })

/-- The cached tail of `_getYear` (lines 86-90): read the disk cache, and
when the file is invalid or unparsed trigger a forced refresh. -/
def getYearDisk (cfg : Cfg) (year : Int) (st : St) : Except PyErr (Option CalDoc × St) :=
  match getCache cfg year st with
  | .error e => .error e
  | .ok (calYear, st1) =>
    match isCacheFileValid cfg year st1 with
    | (v, st2) =>
      if ¬ v ∨ calYear.isNone then cacheYear cfg year true st2
      else .ok (calYear, st2)

/-- `_getYear` (lines 82-92): memory tier (checking the stored document's
`year` key, which Python subscripts and may KeyError), then disk tier, then
forced refresh; with caching disabled, a bare download. -/
def getYear (cfg : Cfg) (year : Int) (st : St) : Except PyErr (Option CalDoc × St) :=
  if cfg.isCache then
    match st.cacheData, isCacheMemDataValid cfg st with
    | some d, true =>
      match d.year with
      | none => .error .keyError
      | some y => if y = year then .ok (some d, st) else getYearDisk cfg year st
    | _, _ => getYearDisk cfg year st
  else
    (downloadYear cfg year st).map (fun p => (some p.1, p.2))

/-- `isWorkDay` (lines 65-76): override check first (`not bool(v)`), then
resolve the year document, look up the month entry, fall back to the weekday
test when the month is absent, else test `days_int` membership. -/
def isWorkDay (cfg : Cfg) (day : Date) (st : St) : Except PyErr (Bool × St) :=
  match cfg.overrides day with
  | some v => .ok (decide (v = 0), st)
  | none =>
    match getYear cfg (day.year : Int) st with
    | .error e => .error e
    | .ok (none, _) => .error .typeError      -- cal_year is None: None['months']
    | .ok (some cal, st1) =>
      match cal.months with
      | none => .error .keyError              -- cal_year['months'] absent
      | some ms =>
        match ms.find? (fun m => decide (m.month = (day.month : Int))) with
        | none => .ok (decide (weekday day < 5), st1)
        | some m =>
          if (day.day : Int) ∈ m.days_int then .ok (false, st1)
          else .ok (true, st1)

/-- `isHoliday` (lines 78-80): the negation of `isWorkDay`, exceptions
propagating. -/
def isHoliday (cfg : Cfg) (day : Date) (st : St) : Except PyErr (Bool × St) :=
  match isWorkDay cfg day st with
  | .error e => .error e
  | .ok (b, st1) => .ok (!b, st1)

/-! Concrete configurations and states used by witnesses and
counterexamples. -/

/-- A remote that answers every year with a well-formed empty-months body. -/
def okRemote : Int → RemoteResp := fun y => .response 200 (some ⟨some y, some []⟩)

/-- An empty override map. -/
def noOverrides : Date → Option Int := fun _ => none

/-- A caching configuration with TTL 100 seconds against `okRemote`. -/
def cfg0 : Cfg := ⟨true, 100, noOverrides, okRemote⟩

/-- A cold state: no files, empty memory slot, clock at 0, UTC+3 zone. -/
def st0 : St := ⟨fun _ => none, none, 0, 10800, 0, 0⟩

/-- A state holding a fresh but unparseable cache file for 2025. -/
def stGarbage : St :=
  ⟨updFiles (fun _ => none) 2025 (some ⟨0, .garbage⟩), none, 50, 10800, 0, 0⟩

/-- A parseable cached document declaring year 2024. -/
def docMismatch : CalDoc := ⟨some 2024, some [], none⟩

/-- A state whose fresh cache file for 2025 contains `docMismatch`. -/
def stMismatch : St :=
  ⟨updFiles (fun _ => none) 2025 (some ⟨0, .parseable docMismatch⟩), none, 50, 10800, 0, 0⟩

/-- A well-formed cached document for 2025. -/
def doc25 : CalDoc := ⟨some 2025, some [], some 0⟩

/-- A state whose fresh cache file for 2025 contains `doc25`. -/
def stFresh25 : St :=
  ⟨updFiles (fun _ => none) 2025 (some ⟨0, .parseable doc25⟩), none, 50, 10800, 0, 0⟩

/-- An instance with caching off, a dead remote, and overrides sending
2025-12-31 to 0, 2025-01-01 to 1 and 2025-05-09 to 2. -/
def cfgOverride : Cfg :=
  ⟨false, 0,
   fun d =>
     if d = ⟨2025, 12, 31⟩ then some 0
     else if d = ⟨2025, 1, 1⟩ then some 1
     else if d = ⟨2025, 5, 9⟩ then some 2 else none,
   fun _ => .transportError⟩

/-! Helper inversion lemmas about the acquisition path. -/

/-- A successful `downloadYear` returns a document declaring the requested
year, stamped with the call-time UTC clock, and bumps only the download
counter. -/
theorem downloadYear_ok_inv (cfg : Cfg) (year : Int) (s : St) (d : CalDoc) (s1 : St)
    (h : downloadYear cfg year s = .ok (d, s1)) :
    d.year = some year ∧ d.downloaded_dt_utc = some s.now ∧
      s1 = { s with dls := s.dls + 1 } := by
  unfold downloadYear at h
  repeat any_goals split at h
  all_goals simp_all
  all_goals (obtain ⟨hd, hs⟩ := h; subst hd; exact ⟨rfl, rfl⟩)

/-- A successful `writeCache` returns a freshly downloaded document for the
requested year, persists it with the current mtime, promotes it into the
memory slot, and performs exactly one download. -/
theorem writeCache_ok_inv (cfg : Cfg) (year : Int) (s : St) (d : CalDoc) (s1 : St)
    (h : writeCache cfg year s = .ok (d, s1)) :
    d.year = some year ∧ d.downloaded_dt_utc = some s.now ∧
      s1 = { s with
              dls := s.dls + 1
              diskOps := s.diskOps + 1
              files := updFiles s.files year (some ⟨s.now, .parseable d⟩)
              cacheData := some d } := by
  unfold writeCache at h
  split at h
  · exact absurd h (by simp)
  next calend st1 hdl =>
    obtain ⟨hy, hdt, hst⟩ := downloadYear_ok_inv cfg year s calend st1 hdl
    subst hst
    simp only [fsTouch, Except.ok.injEq, Prod.mk.injEq] at h
    obtain ⟨hd, hs1⟩ := h
    subst hd
    subst hs1
    exact ⟨hy, hdt, rfl⟩

/-- The freshness predicate exactly as the spec words it:
`isFresh(acquiredAt, ttl, now) <-> acquiredAt + ttl >= now`. -/
def specIsFresh (acquiredAt ttl n : Int) : Bool := decide (acquiredAt + ttl ≥ n)

/-- `_is_cache_file_valid` on an absent file: false, one filesystem touch. -/
theorem isCacheFileValid_none (cfg : Cfg) (year : Int) (s : St)
    (hf : s.files year = none) :
    isCacheFileValid cfg year s = (false, { s with diskOps := s.diskOps + 1 }) := by
  simp [isCacheFileValid, hf, fsTouch]

/-- `_is_cache_file_valid` on a present file: the spec freshness formula on
its mtime (the local-zone offset cancels), two filesystem touches. -/
theorem isCacheFileValid_some (cfg : Cfg) (year : Int) (s : St) (f : CacheFile)
    (hf : s.files year = some f) :
    isCacheFileValid cfg year s =
      (specIsFresh f.mtime cfg.cacheTTL s.now, { s with diskOps := s.diskOps + 2 }) := by
  have he : ((f.mtime + s.localOff) + cfg.cacheTTL ≥ s.now + s.localOff) ↔
      (f.mtime + cfg.cacheTTL ≥ s.now) := by omega
  simp only [isCacheFileValid, hf, fsTouch, specIsFresh]
  rw [decide_eq_decide.mpr he]

/-- `_get_cache` on an absent file: Python None, one touch. -/
theorem getCache_none (cfg : Cfg) (year : Int) (s : St) (hf : s.files year = none) :
    getCache cfg year s = .ok (none, { s with diskOps := s.diskOps + 1 }) := by
  simp [getCache, hf, fsTouch]

/-- `_get_cache` on a stale file: Python None, three filesystem touches
(is_file, then the validity check's is_file and stat). -/
theorem getCache_stale (cfg : Cfg) (year : Int) (s : St) (f : CacheFile)
    (hf : s.files year = some f)
    (hst : specIsFresh f.mtime cfg.cacheTTL s.now = false) :
    getCache cfg year s = .ok (none, { s with diskOps := s.diskOps + 3 }) := by
  have h2 := isCacheFileValid_some cfg year { s with diskOps := s.diskOps + 1 } f hf
  unfold getCache
  simp [hf, fsTouch, h2, hst]
  try omega

/-- `_get_cache` on a fresh unparseable file: `json.load` raises. -/
theorem getCache_garbage (cfg : Cfg) (year : Int) (s : St) (mt : Int)
    (hf : s.files year = some ⟨mt, .garbage⟩)
    (hfr : specIsFresh mt cfg.cacheTTL s.now = true) :
    getCache cfg year s = .error .jsonDecodeError := by
  have h2 := isCacheFileValid_some cfg year { s with diskOps := s.diskOps + 1 } ⟨mt, .garbage⟩ hf
  unfold getCache
  simp [hf, fsTouch, h2, hfr]
  try omega

/-- `_get_cache` on a fresh parseable file: return the document and promote
it into the memory slot; four filesystem touches. -/
theorem getCache_parseable (cfg : Cfg) (year : Int) (s : St) (mt : Int) (d : CalDoc)
    (hf : s.files year = some ⟨mt, .parseable d⟩)
    (hfr : specIsFresh mt cfg.cacheTTL s.now = true) :
    getCache cfg year s =
      .ok (some d, { s with diskOps := s.diskOps + 4, cacheData := some d }) := by
  have h2 := isCacheFileValid_some cfg year { s with diskOps := s.diskOps + 1 } ⟨mt, .parseable d⟩ hf
  unfold getCache
  simp [hf, fsTouch, h2, hfr]
  try omega

/-- A `getCache` that yields a document read it from a parseable file on
disk for that year. -/
theorem getCache_ok_some_inv (cfg : Cfg) (year : Int) (s : St) (d : CalDoc) (s1 : St)
    (h : getCache cfg year s = .ok (some d, s1)) :
    ∃ f, s.files year = some f ∧ f.content = .parseable d := by
  cases hf : s.files year with
  | none => rw [getCache_none cfg year s hf] at h; simp at h
  | some f =>
    cases hfr : specIsFresh f.mtime cfg.cacheTTL s.now with
    | false => rw [getCache_stale cfg year s f hf hfr] at h; simp at h
    | true =>
      cases hct : f.content with
      | garbage =>
        have hf2 : s.files year = some ⟨f.mtime, .garbage⟩ := by rw [hf, ← hct]
        rw [getCache_garbage cfg year s f.mtime hf2 hfr] at h; simp at h
      | parseable doc =>
        have hf2 : s.files year = some ⟨f.mtime, .parseable doc⟩ := by rw [hf, ← hct]
        rw [getCache_parseable cfg year s f.mtime doc hf2 hfr] at h
        simp at h
        exact ⟨f, rfl, by rw [hct, h.1]⟩

/-- Forced `cache_year` is `mkdir` followed by `_write_cache`. -/
theorem cacheYear_forced (cfg : Cfg) (year : Int) (s : St) :
    cacheYear cfg year true s =
      (writeCache cfg year { s with diskOps := s.diskOps + 1 }).map
        (fun p => (some p.1, p.2)) := by
  simp [cacheYear, fsTouch]

/-- When `_getYear` runs with caching on and an invalid memory tier, it is
the disk-then-network tail. -/
theorem getYear_mem_invalid (cfg : Cfg) (year : Int) (s : St)
    (hc : cfg.isCache = true) (hmem : isCacheMemDataValid cfg s = false) :
    getYear cfg year s = getYearDisk cfg year s := by
  unfold getYear
  rw [hc]
  cases hsd : s.cacheData with
  | none => rfl
  | some d => rw [hmem]; simp

/-- The memory-tier hit of `_getYear`: fresh slot holding the requested
year returns it with no state change at all. -/
theorem getYear_mem_hit (cfg : Cfg) (year : Int) (s : St) (d : CalDoc)
    (hc : cfg.isCache = true) (hcd : s.cacheData = some d)
    (hmv : isCacheMemDataValid cfg s = true) (hy : d.year = some year) :
    getYear cfg year s = .ok (some d, s) := by
  unfold getYear
  rw [hc, hcd, hmv]
  simp [hy]

/-- Successful download under explicit remote hypotheses. -/
theorem downloadYear_eq (cfg : Cfg) (year : Int) (s : St) (raw : RawCal)
    (rms : List RawMonth) (nms : List MonthEntry)
    (hrem : cfg.remote year = .response 200 (some raw))
    (hyr : raw.year = some year) (hms : raw.months = some rms)
    (hnorm : normalizeMonths rms = .ok nms) :
    downloadYear cfg year s =
      .ok (⟨some year, some nms, some s.now⟩, { s with dls := s.dls + 1 }) := by
  unfold downloadYear
  rw [hrem]
  simp [hyr, hms, hnorm]

/-- A yearly document as assembled by a successful download at time `t`. -/
def freshDoc (y : Int) (nms : List MonthEntry) (t : Int) : CalDoc :=
  ⟨some y, some nms, some t⟩

/-- Successful `_write_cache` under explicit remote hypotheses. -/
theorem writeCache_eq (cfg : Cfg) (year : Int) (s : St) (raw : RawCal)
    (rms : List RawMonth) (nms : List MonthEntry)
    (hrem : cfg.remote year = .response 200 (some raw))
    (hyr : raw.year = some year) (hms : raw.months = some rms)
    (hnorm : normalizeMonths rms = .ok nms) :
    writeCache cfg year s =
      .ok (freshDoc year nms s.now,
        { s with
           dls := s.dls + 1
           diskOps := s.diskOps + 1
           files := updFiles s.files year (some ⟨s.now, .parseable (freshDoc year nms s.now)⟩)
           cacheData := some (freshDoc year nms s.now) }) := by
  unfold writeCache
  rw [downloadYear_eq cfg year s raw rms nms hrem hyr hms hnorm]
  rfl

/-- The resolution tail on a state with no cache file for the year: one
forced refresh (mkdir, two failed file probes, then `_write_cache`). -/
theorem getYearDisk_cold (cfg : Cfg) (year : Int) (s : St)
    (hfile : s.files year = none) :
    getYearDisk cfg year s =
      (writeCache cfg year { s with diskOps := s.diskOps + 3 }).map
        (fun p => (some p.1, p.2)) := by
  unfold getYearDisk
  rw [getCache_none cfg year s hfile]
  have h3 := isCacheFileValid_none cfg year { s with diskOps := s.diskOps + 1 } hfile
  have harith : s.diskOps + 1 + 1 + 1 = s.diskOps + 3 := by omega
  simp [h3, cacheYear_forced, fsTouch, harith]

/-- A mapped `_write_cache` that yields a document yields one declaring the
requested year. -/
theorem writeCacheMap_ok_year (cfg : Cfg) (year : Int) (s2 : St) (r : CalDoc) (s1 : St)
    (h : (writeCache cfg year s2).map (fun p => (some p.1, p.2)) = .ok (some r, s1)) :
    r.year = some year := by
  cases hw : writeCache cfg year s2 with
  | error e => rw [hw] at h; simp [Except.map] at h
  | ok p =>
    rw [hw] at h
    simp [Except.map] at h
    have hinv := writeCache_ok_inv cfg year s2 p.1 p.2 (by rw [hw])
    rw [← h.1]
    exact hinv.1

/-- A `cache_year` call that yields a document yields one declaring the
requested year (every such document comes from `_write_cache`). -/
theorem cacheYear_ok_some_year (cfg : Cfg) (year : Int) (forced : Bool) (s : St)
    (r : CalDoc) (s1 : St)
    (h : cacheYear cfg year forced s = .ok (some r, s1)) :
    r.year = some year := by
  unfold cacheYear at h
  simp only [fsTouch] at h
  split at h
  · exact writeCacheMap_ok_year cfg year _ r s1 h
  · split at h
    · exact writeCacheMap_ok_year cfg year _ r s1 h
    · split at h
      · exact writeCacheMap_ok_year cfg year _ r s1 h
      · simp at h

/-- The resolution tail never yields a mismatched year provided every
parseable file on disk for the year declares that year. -/
theorem getYearDisk_ok_year (cfg : Cfg) (year : Int) (s : St) (r : CalDoc) (s1 : St)
    (hgood : ∀ f d, s.files year = some f → f.content = .parseable d → d.year = some year)
    (h : getYearDisk cfg year s = .ok (some r, s1)) :
    r.year = some year := by
  unfold getYearDisk at h
  cases hgc : getCache cfg year s with
  | error e => rw [hgc] at h; simp at h
  | ok p =>
    obtain ⟨calYear, st1⟩ := p
    simp only [hgc] at h
    cases hv : isCacheFileValid cfg year st1 with
    | mk v st2 =>
      simp only [hv] at h
      by_cases hcond : (¬ v = true ∨ calYear.isNone = true)
      · rw [if_pos hcond] at h
        exact cacheYear_ok_some_year cfg year true st2 r s1 h
      · rw [if_neg hcond] at h
        simp at h
        obtain ⟨f, hf, hpc⟩ := getCache_ok_some_inv cfg year s r st1 (by rw [hgc, h.1])
        exact hgood f r hf hpc

/-- The state after a cold `_getYear` resolve that downloaded `doc`. -/
def afterFirstResolve (s : St) (year : Int) (doc : CalDoc) : St :=
  { s with
     dls := s.dls + 1
     diskOps := s.diskOps + 4
     files := updFiles s.files year (some ⟨s.now, .parseable doc⟩)
     cacheData := some doc }

/-! Claim theorems. -/

/-- C1: for every date in the override map, an override value of 0 makes
`isWorkDay` return True and a value of 1 makes `isHoliday` return True,
regardless of any cached document content: the state (memory slot, files,
counters) is returned untouched and the yearly document is never resolved. -/
theorem override_zero_forces_work_one_forces_holiday (cfg : Cfg)
    (d0 d1 : Date) (s0 s1 : St)
    (h0 : cfg.overrides d0 = some 0) (h1 : cfg.overrides d1 = some 1) :
    isWorkDay cfg d0 s0 = .ok (true, s0) ∧ isHoliday cfg d1 s1 = .ok (true, s1) := by
  constructor
  · unfold isWorkDay
    rw [h0]
    simp
  · unfold isHoliday isWorkDay
    rw [h1]
    simp

/-- C1 witness: concrete overrides 2025-12-31 to 0 and 2025-01-01 to 1. -/
theorem override_zero_forces_work_one_forces_holiday_w :
    isWorkDay cfgOverride ⟨2025, 12, 31⟩ st0 = .ok (true, st0) ∧
      isHoliday cfgOverride ⟨2025, 1, 1⟩ st0 = .ok (true, st0) :=
  override_zero_forces_work_one_forces_holiday cfgOverride
    ⟨2025, 12, 31⟩ ⟨2025, 1, 1⟩ st0 st0 (by decide) (by decide)

/-- C10: for a date in the override map, `isWorkDay` returns
`override value == 0` for ANY integer value, performs no cache, disk or
network access (the state — memory slot, files, both counters — is returned
unchanged) and cannot raise, even with caching disabled and the remote
unreachable. -/
theorem override_any_value_no_side_effects (cfg : Cfg) (d : Date) (s : St) (v : Int)
    (h : cfg.overrides d = some v) :
    isWorkDay cfg d s = .ok (decide (v = 0), s) := by
  unfold isWorkDay
  rw [h]

/-- C10 witness: override value 2 (nonzero, not 1) on a dead-remote,
cache-disabled instance yields False with the state untouched. -/
theorem override_any_value_no_side_effects_w :
    isWorkDay cfgOverride ⟨2025, 5, 9⟩ st0 = .ok (false, st0) := by
  have h := override_any_value_no_side_effects cfgOverride ⟨2025, 5, 9⟩ st0 2 (by decide)
  simpa using h

/-- C7: `isHoliday` is exactly the negation of `isWorkDay` — on every input
(override dates included) it returns the negated boolean with the identical
post-state, and propagates the identical exception. -/
theorem isHoliday_is_negation_of_isWorkDay (cfg : Cfg) (d : Date) (s : St) :
    isHoliday cfg d s = (isWorkDay cfg d s).map (fun p => (!p.1, p.2)) := by
  unfold isHoliday
  cases hw : isWorkDay cfg d s <;> simp [hw, Except.map]

/-- C5: normalizing the day string "3,9+,14*" keeps 3 (no annotation) and
9 (a '+' marker, digits kept), and drops 14 (a trailing '*' marker). -/
theorem day_marker_normalization :
    daysInt "3,9+,14*" = .ok [3, 9] ∧ (3 : Int) ∈ [(3 : Int), 9] ∧
      (9 : Int) ∈ [(3 : Int), 9] ∧ (14 : Int) ∉ [(3 : Int), 9] := by
  refine ⟨?_, by decide, by decide, by decide⟩
  rfl

/-- A cache-off configuration against the healthy `okRemote`. -/
def cfgNC : Cfg := ⟨false, 100, noOverrides, okRemote⟩

/-- `stFresh25` with `doc25` also promoted into the memory slot. -/
def stMem25 : St := { stFresh25 with cacheData := some doc25 }

/-- The state after `writeCache cfg0 2025 st0`. -/
def stPost : St :=
  { st0 with
     dls := 1
     diskOps := 1
     files := updFiles st0.files 2025 (some ⟨0, .parseable doc25⟩)
     cacheData := some doc25 }

/-- C4: both tiers decide freshness by the spec formula
`acquiredAt + ttl >= now` — the disk tier over the file mtime (the local-zone
offset added by `datetime.fromtimestamp` and `datetime.now` cancels), the
memory tier over the embedded `downloaded_dt_utc` stamp — and for a document
just persisted by `writeCache` (same acquisition in both tiers, stamped with
the same clock) the two verdicts coincide at every later instant, so a
freshly written disk file is never judged stale while the memory copy is
judged fresh. -/
theorem freshness_same_formula_both_tiers (cfg : Cfg) (year : Int) (s : St) :
    (∀ f, s.files year = some f →
      (isCacheFileValid cfg year s).1 = specIsFresh f.mtime cfg.cacheTTL s.now) ∧
    (∀ d t, s.cacheData = some d → d.downloaded_dt_utc = some t →
      isCacheMemDataValid cfg s = specIsFresh t cfg.cacheTTL s.now) ∧
    (∀ doc s1, writeCache cfg year s = .ok (doc, s1) → ∀ n,
      (isCacheFileValid cfg year { s1 with now := n }).1 =
        isCacheMemDataValid cfg { s1 with now := n }) := by
  refine ⟨?_, ?_, ?_⟩
  · intro f hf
    simp only [isCacheFileValid, hf, specIsFresh, decide_eq_decide]
    omega
  · intro d t hd ht
    simp only [isCacheMemDataValid, hd, ht, specIsFresh]
  · intro doc s1 hw n
    obtain ⟨hy, hdt, hs1⟩ := writeCache_ok_inv cfg year s doc s1 hw
    subst hs1
    simp only [isCacheFileValid, isCacheMemDataValid, updFiles, if_pos,
      hdt, decide_eq_decide]
    omega

/-- C4 witness: concrete disk tier, memory tier, and post-`writeCache`
agreement at instant 42. -/
theorem freshness_same_formula_both_tiers_w :
    (isCacheFileValid cfg0 2025 stFresh25).1 = specIsFresh 0 100 50 ∧
      isCacheMemDataValid cfg0 stMem25 = specIsFresh 0 100 50 ∧
      (isCacheFileValid cfg0 2025 { stPost with now := 42 }).1 =
        isCacheMemDataValid cfg0 { stPost with now := 42 } := by
  refine ⟨?_, ?_, ?_⟩
  · exact (freshness_same_formula_both_tiers cfg0 2025 stFresh25).1
      ⟨0, .parseable doc25⟩ rfl
  · exact (freshness_same_formula_both_tiers cfg0 2025 stMem25).2.1 doc25 0 rfl rfl
  · exact (freshness_same_formula_both_tiers cfg0 2025 st0).2.2 doc25 stPost rfl 42

/-- C6: for a date outside the override map, when resolution succeeds with a
document whose months list has no entry for the queried month, `isWorkDay`
does not raise and returns the plain weekday test — `weekday` is Python
`date.weekday` (Monday = 0 .. Sunday = 6), so the result is true exactly on
Monday..Friday and false on Saturday and Sunday. -/
theorem missing_month_falls_back_to_weekday (cfg : Cfg) (d : Date) (s s1 : St)
    (doc : CalDoc) (ms : List MonthEntry)
    (hov : cfg.overrides d = none)
    (hres : getYear cfg (d.year : Int) s = .ok (some doc, s1))
    (hm : doc.months = some ms)
    (habs : ∀ m ∈ ms, m.month ≠ (d.month : Int)) :
    isWorkDay cfg d s = .ok (decide (weekday d < 5), s1) := by
  have hf : ms.find? (fun m => decide (m.month = (d.month : Int))) = none :=
    List.find?_eq_none.mpr (fun x hx => by simpa using habs x hx)
  simp only [isWorkDay, hov, hres, hm, hf]

/-- C6 witness: 2025-11-01 (a Saturday) against a document with an empty
months list resolves without raising to the weekday verdict `false`. -/
theorem missing_month_falls_back_to_weekday_w :
    isWorkDay cfgNC ⟨2025, 11, 1⟩ st0 = .ok (false, { st0 with dls := 1 }) := by
  have hwd : weekday ⟨2025, 11, 1⟩ = 5 := rfl
  have h := missing_month_falls_back_to_weekday cfgNC ⟨2025, 11, 1⟩ st0
      { st0 with dls := 1 } ⟨some 2025, some [], some 0⟩ []
      rfl rfl rfl (by simp)
  simpa [hwd] using h

/-- A caching configuration whose remote always fails at transport level. -/
def cfgDead : Cfg := ⟨true, 100, noOverrides, fun _ => .transportError⟩

/-- A caching configuration whose remote always answers 404. -/
def cfg404 : Cfg := ⟨true, 100, noOverrides, fun _ => .response 404 none⟩

/-- A caching configuration whose remote always answers a 2024 document. -/
def cfgWrongYear : Cfg :=
  ⟨true, 100, noOverrides, fun _ => .response 200 (some ⟨some 2024, some []⟩)⟩

/-- A caching configuration whose remote answers 2025 documents without a
months key. -/
def cfgNoMonths : Cfg :=
  ⟨true, 100, noOverrides, fun _ => .response 200 (some ⟨some 2025, none⟩)⟩

/-- C2 amended: only a MISSING or EXPIRED cache file is treated as a cache
miss — resolution then falls through to network acquisition and returns the
freshly fetched document; but a fresh on-disk file that fails to parse makes
resolution raise the parse error (`json.load` in `_get_cache` is unguarded),
it does not fall through. -/
theorem cache_miss_vs_parse_failure (cfg : Cfg) (year : Int)
    (hc : cfg.isCache = true) :
    (∀ s mt, isCacheMemDataValid cfg s = false →
      s.files year = some ⟨mt, .garbage⟩ →
      specIsFresh mt cfg.cacheTTL s.now = true →
      getYear cfg year s = .error .jsonDecodeError) ∧
    (∀ s, isCacheMemDataValid cfg s = false → s.files year = none →
      getYear cfg year s =
        (writeCache cfg year { s with diskOps := s.diskOps + 3 }).map
          (fun p => (some p.1, p.2))) := by
  constructor
  · intro s mt hmem hf hfr
    rw [getYear_mem_invalid cfg year s hc hmem]
    unfold getYearDisk
    rw [getCache_garbage cfg year s mt hf hfr]
  · intro s hmem hf
    rw [getYear_mem_invalid cfg year s hc hmem]
    exact getYearDisk_cold cfg year s hf

/-- C2 witness: the garbage-file raise and the cold-state fall-through at
the concrete instance. -/
theorem cache_miss_vs_parse_failure_w :
    getYear cfg0 2025 stGarbage = .error .jsonDecodeError ∧
      getYear cfg0 2025 st0 =
        (writeCache cfg0 2025 { st0 with diskOps := st0.diskOps + 3 }).map
          (fun p => (some p.1, p.2)) := by
  obtain ⟨h1, h2⟩ := cache_miss_vs_parse_failure cfg0 2025 rfl
  exact ⟨h1 stGarbage 0 rfl rfl rfl, h2 st0 rfl rfl⟩

/-- C3 amended: `_downloadYear` raises ProdCalServiceNotRespond on a
transport failure or a non-200 status, raises ProdCalError when the fetched
document declares another year or lacks the months key, and every document
it returns declares the requested year — and `_getYear` never returns a
mismatched year PROVIDED every parseable cache file on disk for that year
declares that year (the memory tier checks the year, the download path
stamps it, but the disk tier performs no year validation, so the proviso is
necessary). -/
theorem download_errors_and_year_guarantees (year : Int) :
    (∀ cfg s, cfg.remote year = .transportError →
      downloadYear cfg year s = .error .serviceNotRespond) ∧
    (∀ cfg s status body, cfg.remote year = .response status body →
      status ≠ 200 → downloadYear cfg year s = .error .serviceNotRespond) ∧
    (∀ cfg s raw y, cfg.remote year = .response 200 (some raw) →
      raw.year = some y → y ≠ year →
      downloadYear cfg year s = .error .prodCalError) ∧
    (∀ cfg s raw, cfg.remote year = .response 200 (some raw) →
      raw.year = some year → raw.months = none →
      downloadYear cfg year s = .error .prodCalError) ∧
    (∀ cfg s d s1, downloadYear cfg year s = .ok (d, s1) → d.year = some year) ∧
    (∀ cfg s r s1,
      (∀ f d, s.files year = some f → f.content = .parseable d →
        d.year = some year) →
      getYear cfg year s = .ok (some r, s1) → r.year = some year) := by
  refine ⟨?_, ?_, ?_, ?_, ?_, ?_⟩
  · intro cfg s h
    unfold downloadYear
    rw [h]
  · intro cfg s status body h hs
    unfold downloadYear
    rw [h]
    simp [hs]
  · intro cfg s raw y h hyr hne
    unfold downloadYear
    rw [h]
    simp [hyr, Ne.symm hne]
  · intro cfg s raw h hyr hmn
    unfold downloadYear
    rw [h]
    simp [hyr, hmn]
  · intro cfg s d s1 h
    exact (downloadYear_ok_inv cfg year s d s1 h).1
  · intro cfg s r s1 hgood h
    unfold getYear at h
    split at h
    · split at h
      · next d _ =>
        split at h
        · simp at h
        · next y heqy =>
          split at h
          · next hyy =>
            simp at h
            rw [← h.1, heqy, hyy]
          · exact getYearDisk_ok_year cfg year s r s1 hgood h
      · exact getYearDisk_ok_year cfg year s r s1 hgood h
    · cases hd : downloadYear cfg year s with
      | error e => rw [hd] at h; simp [Except.map] at h
      | ok p =>
        rw [hd] at h
        simp [Except.map] at h
        rw [← h.1]
        exact (downloadYear_ok_inv cfg year s p.1 p.2 hd).1

/-- C3 witness: the four download failure modes and the year guarantee of
a resolved document, at concrete instances. -/
theorem download_errors_and_year_guarantees_w :
    downloadYear cfgDead 2025 st0 = .error .serviceNotRespond ∧
      downloadYear cfg404 2025 st0 = .error .serviceNotRespond ∧
      downloadYear cfgWrongYear 2025 st0 = .error .prodCalError ∧
      downloadYear cfgNoMonths 2025 st0 = .error .prodCalError ∧
      doc25.year = some 2025 := by
  obtain ⟨h1, h2, h3, h4, h5, h6⟩ := download_errors_and_year_guarantees 2025
  refine ⟨h1 cfgDead st0 rfl,
    h2 cfg404 st0 404 none rfl (by decide),
    h3 cfgWrongYear st0 ⟨some 2024, some []⟩ 2024 rfl rfl (by decide),
    h4 cfgNoMonths st0 ⟨some 2025, none⟩ rfl rfl rfl, ?_⟩
  exact h6 cfg0 st0 doc25 (afterFirstResolve st0 2025 doc25)
    (fun f d hf hc2 => by simp [st0] at hf) rfl

/-- C8: from a cold state (empty memory slot, no file for the year) with
caching on and a healthy remote, the first `_getYear` performs exactly one
network acquisition; a second call at any later instant within the TTL
returns the same document from the memory tier with the state COMPLETELY
unchanged — no disk access, no network access. -/
theorem resolve_twice_one_download (cfg : Cfg) (year : Int) (s : St) (n2 : Int)
    (raw : RawCal) (rms : List RawMonth) (nms : List MonthEntry)
    (hc : cfg.isCache = true) (hmem : s.cacheData = none)
    (hfile : s.files year = none)
    (hrem : cfg.remote year = .response 200 (some raw))
    (hyr : raw.year = some year) (hms : raw.months = some rms)
    (hnorm : normalizeMonths rms = .ok nms)
    (httl : s.now + cfg.cacheTTL ≥ n2) :
    getYear cfg year s =
      .ok (some (freshDoc year nms s.now),
        afterFirstResolve s year (freshDoc year nms s.now)) ∧
    getYear cfg year
        { afterFirstResolve s year (freshDoc year nms s.now) with now := n2 } =
      .ok (some (freshDoc year nms s.now),
        { afterFirstResolve s year (freshDoc year nms s.now) with now := n2 }) := by
  have hmv : isCacheMemDataValid cfg s = false := by
    simp [isCacheMemDataValid, hmem]
  constructor
  · rw [getYear_mem_invalid cfg year s hc hmv, getYearDisk_cold cfg year s hfile,
      writeCache_eq cfg year _ raw rms nms hrem hyr hms hnorm]
    simp [afterFirstResolve, freshDoc, Except.map]
  · apply getYear_mem_hit cfg year _ (freshDoc year nms s.now) hc
    · rfl
    · simp [isCacheMemDataValid, afterFirstResolve, freshDoc]
      exact httl
    · rfl

/-- C8 witness: cold resolve of 2025 then a second call at instant 60
(within the TTL of 100). -/
theorem resolve_twice_one_download_w :
    getYear cfg0 2025 st0 =
      .ok (some (freshDoc 2025 [] 0), afterFirstResolve st0 2025 (freshDoc 2025 [] 0)) ∧
    getYear cfg0 2025 { afterFirstResolve st0 2025 (freshDoc 2025 [] 0) with now := 60 } =
      .ok (some (freshDoc 2025 [] 0),
        { afterFirstResolve st0 2025 (freshDoc 2025 [] 0) with now := 60 }) :=
  resolve_twice_one_download cfg0 2025 st0 60 ⟨some 2025, some []⟩ [] []
    rfl rfl rfl rfl rfl rfl rfl (by decide)

/-- C9 amended: non-forced `cache_year` with a fresh valid disk copy does
not raise and performs NO network acquisition but returns Python None, not
that document; with no fresh copy (file absent or expired) it acquires over
the network via `_write_cache`, which persists the document with the current
mtime, promotes it to memory, and counts exactly one download. -/
theorem prime_unforced_no_fetch_on_fresh (cfg : Cfg) (year : Int) :
    (∀ s f, s.files year = some f → specIsFresh f.mtime cfg.cacheTTL s.now = true →
      cacheYear cfg year false s = .ok (none, { s with diskOps := s.diskOps + 4 })) ∧
    (∀ s, s.files year = none →
      cacheYear cfg year false s =
        (writeCache cfg year { s with diskOps := s.diskOps + 2 }).map
          (fun p => (some p.1, p.2))) ∧
    (∀ s f, s.files year = some f → specIsFresh f.mtime cfg.cacheTTL s.now = false →
      cacheYear cfg year false s =
        (writeCache cfg year { s with diskOps := s.diskOps + 4 }).map
          (fun p => (some p.1, p.2))) ∧
    (∀ s d s1, writeCache cfg year s = .ok (d, s1) →
      s1.files year = some ⟨s.now, .parseable d⟩ ∧ s1.dls = s.dls + 1 ∧
        s1.cacheData = some d) := by
  refine ⟨?_, ?_, ?_, ?_⟩
  · intro s f hf hfr
    have h2 := isCacheFileValid_some cfg year { s with diskOps := s.diskOps + 2 } f hf
    unfold cacheYear
    simp [hf, fsTouch, h2, hfr]
    try omega
  · intro s hf
    unfold cacheYear
    simp [hf, fsTouch]
  · intro s f hf hfr
    have h2 := isCacheFileValid_some cfg year { s with diskOps := s.diskOps + 2 } f hf
    unfold cacheYear
    simp [hf, fsTouch, h2, hfr]
    try omega
  · intro s d s1 hw
    obtain ⟨hy, hdt, hs1⟩ := writeCache_ok_inv cfg year s d s1 hw
    subst hs1
    simp [updFiles]

/-- C9 witness: non-forced priming over the fresh `stFresh25` file returns
None without downloading; over the cold `st0` it downloads and persists. -/
theorem prime_unforced_no_fetch_on_fresh_w :
    cacheYear cfg0 2025 false stFresh25 =
      .ok (none, { stFresh25 with diskOps := stFresh25.diskOps + 4 }) ∧
      cacheYear cfg0 2025 false st0 =
        (writeCache cfg0 2025 { st0 with diskOps := st0.diskOps + 2 }).map
          (fun p => (some p.1, p.2)) := by
  obtain ⟨h1, h2, h3, h4⟩ := prime_unforced_no_fetch_on_fresh cfg0 2025
  exact ⟨h1 stFresh25 ⟨0, .parseable doc25⟩ rfl rfl, h2 st0 rfl⟩

/-- C2 counterexample: a fresh but unparseable cache file for 2025 with an
empty memory slot makes `getYear` raise the JSON parse error instead of
treating the file as absent and fetching from the (healthy) remote. -/
theorem parse_failure_raises_cx :
    getYear cfg0 2025 stGarbage = .error .jsonDecodeError := by rfl

/-- C3 counterexample: a fresh parseable cache file for 2025 whose document
declares year 2024 is returned by `getYear 2025` unchanged — the disk tier
performs no year validation. -/
theorem disk_year_mismatch_cx :
    (getYear cfg0 2025 stMismatch).map Prod.fst = .ok (some docMismatch) ∧
      docMismatch.year = some 2024 := ⟨rfl, rfl⟩

/-- C9 counterexample: non-forced priming over a fresh valid cache file
holding `doc25` returns Python None rather than that document. -/
theorem unforced_prime_returns_none_cx :
    (cacheYear cfg0 2025 false stFresh25).map Prod.fst = .ok none ∧
      (stFresh25.files 2025).map CacheFile.content = some (.parseable doc25) :=
  ⟨rfl, rfl⟩

end ProdCal
